import Mathlib

/-!
Verification of the stage-registry subsystem of the USD MCP server.

The development shallowly embeds the Python code of
`usd_mcp_server/core/registry.py`, `usd_mcp_server/core/stage_operations.py`
and `usd_mcp_server.py` into Lean:

* Python dicts become association lists (`alookup`/`aset`/`adel` mirror
  `d[k]`, `d[k] = v`, `del d[k]`; Python 3.7+ dicts preserve insertion order,
  and assignment to an existing key keeps its position).
* The registry's single non-reentrant `threading.Lock` is modeled by a
  `lockHeld` flag.  Every registry method runs its body through `withLock`;
  acquiring an already-held lock blocks the calling thread forever, so a
  method call is a function into `Option`, where `none` means "the call does
  not return normally" (it blocks forever on the lock, or an uncaught
  exception such as a `KeyError` escapes).
* `uuid.uuid4()` is modeled by a fresh-counter field `nextId` (uuid4 values
  are globally unique, so a strictly increasing counter is a faithful model
  of the stream of ids the process draws).
* `time.time()` is modeled by a strictly increasing `clock` field, ticked on
  every read (real wall-clock reads are nondecreasing; claims about access
  times only ever assume distinct values).
* Calls into the external USD engine (`Usd.Stage`, `GetRootLayer().Save()`,
  `Unload()`) are the out-of-scope adapter.  A flush (`Save`) may raise; each
  operation that can flush takes a boolean oracle telling whether the flush
  succeeds, and every flush attempt is recorded in a ghost `flushAttempts`
  log so that "a flush was attempted" is observable.  `Unload()` is assumed
  not to raise.
-/

set_option linter.unusedVariables false

namespace UsdMcp

/-- Python dict lookup `d.get(k)` on an association list. -/
def alookup {κ α : Type} [DecidableEq κ] : List (κ × α) → κ → Option α
  | [], _ => none
  | (k', v) :: rest, k => if k' = k then some v else alookup rest k

/-- Python dict assignment `d[k] = v`: update in place if the key is present
(keeping its position), otherwise append at the end. -/
def aset {κ α : Type} [DecidableEq κ] : List (κ × α) → κ → α → List (κ × α)
  | [], k, v => [(k, v)]
  | (k', v') :: rest, k, v =>
      if k' = k then (k, v) :: rest else (k', v') :: aset rest k v

/-- Removal of a key: drops every binding of `k`, which on the duplicate-free
key lists that represent Python dicts is the unique binding of `k`.  Used
where the source code guards the `del` with a membership test on the same
dict. -/
def aerase {κ α : Type} [DecidableEq κ] : List (κ × α) → κ → List (κ × α)
  | [], _ => []
  | (k', v) :: rest, k =>
      if k' = k then aerase rest k else (k', v) :: aerase rest k

/-- Python `del d[k]`: raises `KeyError` (modeled as `none`) if the key is
absent. -/
def adel {κ α : Type} [DecidableEq κ] (l : List (κ × α)) (k : κ) :
    Option (List (κ × α)) :=
  if (alookup l k).isSome then some (aerase l k) else none

/-- The key list of an association list (`d.keys()`). -/
def akeys {κ α : Type} (l : List (κ × α)) : List κ := l.map (fun p => p.1)

/-- Stable insertion of `x` into `l`, ordered by the numeric key `f`. -/
def insertByVal {κ : Type} (f : κ → Nat) (x : κ) : List κ → List κ
  | [] => [x]
  | y :: ys => if f x < f y then x :: y :: ys else y :: insertByVal f x ys

/-- Python `sorted(l, key=f)`: stable sort by the numeric key `f`. -/
def sortByVal {κ : Type} (f : κ → Nat) : List κ → List κ
  | [] => []
  | x :: xs => insertByVal f x (sortByVal f xs)

/-- State of `StageRegistry` (`usd_mcp_server/core/registry.py` lines 24-224;
the identical class is repeated in `usd_mcp_server.py` lines 2755-2961).
The four `_stages`/`_stage_file_paths`/`_stage_access_times`/`_stage_modified`
dicts keep their source names minus the leading underscore.  `lockHeld`,
`nextId`, `clock` and `flushAttempts` are the model fields described in the
module docstring. -/
structure StageRegistry where
  stages : List (Nat × Nat)
  stage_file_paths : List (Nat × String)
  stage_access_times : List (Nat × Nat)
  stage_modified : List (Nat × Bool)
  max_cache_size : Nat
  lockHeld : Bool
  nextId : Nat
  clock : Nat
  flushAttempts : List Nat
  deriving DecidableEq, Repr

/-- `StageRegistry.__init__(max_cache_size)`: four empty dicts and a free
lock. -/
def StageRegistry.init (max_cache_size : Nat) : StageRegistry :=
  { stages := [], stage_file_paths := [], stage_access_times := [],
    stage_modified := [], max_cache_size := max_cache_size,
    lockHeld := false, nextId := 0, clock := 0, flushAttempts := [] }

/-- Python `with self._lock: body`.  `threading.Lock` is non-reentrant: if the
calling thread already holds the lock, the acquire blocks forever (`none`).
Otherwise the body runs with the lock held and the lock is released on exit
(the `with` statement releases it on normal return and on exception alike;
a body returning `none` models a call that never returns normally). -/
def withLock {α : Type} (r : StageRegistry)
    (body : StageRegistry → Option (α × StageRegistry)) :
    Option (α × StageRegistry) :=
  if r.lockHeld then none
  else
    match body { r with lockHeld := true } with
    | none => none
    | some (a, r') => some (a, { r' with lockHeld := false })

/-- `StageRegistry.get_stage` (registry.py lines 70-84): refresh the access
time and return the stage if present, otherwise return Python `None`. -/
def get_stage (r : StageRegistry) (stage_id : Nat) :
    Option (Option Nat × StageRegistry) :=
  withLock r (fun st =>
    match alookup st.stages stage_id with
    | some stage =>
        some (some stage,
          { st with
              stage_access_times := aset st.stage_access_times stage_id st.clock,
              clock := st.clock + 1 })
    | none => some (none, st))

/-- `StageRegistry.get_stage_path` (registry.py lines 86-96). -/
def get_stage_path (r : StageRegistry) (stage_id : Nat) :
    Option (Option String × StageRegistry) :=
  withLock r (fun st => some (alookup st.stage_file_paths stage_id, st))

/-- `StageRegistry.mark_as_modified` (registry.py lines 98-111). -/
def mark_as_modified (r : StageRegistry) (stage_id : Nat) :
    Option (Bool × StageRegistry) :=
  withLock r (fun st =>
    if (alookup st.stages stage_id).isSome then
      some (true, { st with stage_modified := aset st.stage_modified stage_id true })
    else some (false, st))

/-- `StageRegistry.is_modified` (registry.py lines 113-123). -/
def is_modified (r : StageRegistry) (stage_id : Nat) :
    Option (Bool × StageRegistry) :=
  withLock r (fun st => some ((alookup st.stage_modified stage_id).getD false, st))

/-- `StageRegistry.save_stage` (registry.py lines 125-143): flush through the
adapter iff the stage is present and modified; a successful flush clears the
modified flag and returns `True`; a raising flush is caught, logged and
`False` is returned with the flag left set.  `flushOk` tells whether
`GetRootLayer().Save()` succeeds. -/
def save_stage (r : StageRegistry) (flushOk : Bool) (stage_id : Nat) :
    Option (Bool × StageRegistry) :=
  withLock r (fun st =>
    if (alookup st.stages stage_id).isSome &&
        (alookup st.stage_modified stage_id).getD false then
      let st := { st with flushAttempts := st.flushAttempts ++ [stage_id] }
      if flushOk then
        some (true, { st with stage_modified := aset st.stage_modified stage_id false })
      else
        some (false, st)
    else some (false, st))

/-- `StageRegistry.unregister_stage` (registry.py lines 145-174): if present,
optionally attempt a flush (a raising flush is caught and logged, and does
not stop the removal), unload the stage and delete the entry from all four
dicts.  The `del` statements raise `KeyError` (hence `none`) if one of the
other three dicts lacks the key. -/
def unregister_stage (r : StageRegistry) (flushOk : Bool) (stage_id : Nat)
    (save_if_modified : Bool) : Option (Bool × StageRegistry) :=
  withLock r (fun st =>
    if (alookup st.stages stage_id).isSome then
      let st :=
        if save_if_modified && (alookup st.stage_modified stage_id).getD false then
          { st with flushAttempts := st.flushAttempts ++ [stage_id] }
        else st
      match adel st.stage_file_paths stage_id,
            adel st.stage_access_times stage_id,
            adel st.stage_modified stage_id with
      | some fps, some ats, some mds =>
          some (true,
            { st with
                stages := aerase st.stages stage_id,
                stage_file_paths := fps,
                stage_access_times := ats,
                stage_modified := mds })
      | _, _, _ => none
    else some (false, st))

/-- One pass of the `for stage_id in stages_to_remove:` loop of
`perform_cache_cleanup`: each iteration calls `self.unregister_stage`, which
re-acquires the registry lock. -/
def unregisterEach (flushOk : Nat → Bool) :
    List Nat → StageRegistry → Option StageRegistry
  | [], st => some st
  | stage_id :: rest, st =>
      match unregister_stage st (flushOk stage_id) stage_id true with
      | none => none
      | some (_, st') => unregisterEach flushOk rest st'

/-- `StageRegistry.perform_cache_cleanup` (registry.py lines 176-201): under
the lock, if over the cap, sort the ids by access time (oldest first) and
unregister the oldest `count - max_cache_size` ids via `unregister_stage`.
-/
def perform_cache_cleanup (r : StageRegistry) (flushOk : Nat → Bool) :
    Option (Nat × StageRegistry) :=
  withLock r (fun st =>
    if st.stages.length ≤ st.max_cache_size then some (0, st)
    else
      let sorted_ids :=
        sortByVal (fun k => (alookup st.stage_access_times k).getD 0)
          (akeys st.stage_access_times)
      let num_to_remove := st.stages.length - st.max_cache_size
      let stages_to_remove := sorted_ids.take num_to_remove
      match unregisterEach flushOk stages_to_remove st with
      | none => none
      | some st' => some (stages_to_remove.length, st'))

/-- `StageRegistry.register_stage` (registry.py lines 47-68): under the lock,
draw a fresh uuid, fill all four dicts, and if the insertion pushed the count
above `max_cache_size`, call `self.perform_cache_cleanup()` — which
re-acquires the very same (already held, non-reentrant) lock. -/
def register_stage (r : StageRegistry) (flushOk : Nat → Bool)
    (file_path : String) (stage : Nat) : Option (Nat × StageRegistry) :=
  withLock r (fun st =>
    let stage_id := st.nextId
    let st :=
      { st with
          nextId := st.nextId + 1,
          stages := aset st.stages stage_id stage,
          stage_file_paths := aset st.stage_file_paths stage_id file_path,
          stage_access_times := aset st.stage_access_times stage_id st.clock,
          clock := st.clock + 1,
          stage_modified := aset st.stage_modified stage_id false }
    if st.stages.length > st.max_cache_size then
      match perform_cache_cleanup st flushOk with
      | none => none
      | some (_, st') => some (stage_id, st')
    else some (stage_id, st))

/-- Result record of `StageRegistry.get_stats` (registry.py lines 212-224). -/
structure RegistryStats where
  total_stages : Nat
  max_cache_size : Nat
  modified_stages : Nat
  stage_ids : List Nat
  deriving DecidableEq, Repr

/-- `StageRegistry.get_stats` (registry.py lines 212-224). -/
def get_stats (r : StageRegistry) : Option (RegistryStats × StageRegistry) :=
  withLock r (fun st =>
    some ({ total_stages := st.stages.length,
            max_cache_size := st.max_cache_size,
            modified_stages := (st.stage_modified.filter (fun p => p.2)).length,
            stage_ids := akeys st.stages }, st))

/-- The module-level legacy cache of `usd_mcp_server.py` (lines 63-68): three
global dicts keyed by absolute file path, with no lock.  `flushAttempts` is
the ghost log of `GetRootLayer().Save()` calls made on cached stages.  Path
canonicalization (`os.path.abspath`) is out of scope: paths are compared
verbatim. -/
structure LegacyCache where
  stage_cache : List (String × Nat)
  stage_access_times : List (String × Nat)
  stage_modified : List (String × Bool)
  clock : Nat
  flushAttempts : List String
  deriving DecidableEq, Repr

/-- The empty legacy cache. -/
def LegacyCache.init : LegacyCache :=
  { stage_cache := [], stage_access_times := [], stage_modified := [],
    clock := 0, flushAttempts := [] }

/-- Remove a path from all three legacy dicts (the `del` statements of
`cleanup_stage_cache`; the path is drawn from `stage_access_times`, its
presence in `stage_cache` is guarded, and the `del` on `stage_modified` is
guarded by a membership test, so no `KeyError` can fire here). -/
def legacyRemove (c : LegacyCache) (p : String) : LegacyCache :=
  { c with
      stage_cache := aerase c.stage_cache p,
      stage_access_times := aerase c.stage_access_times p,
      stage_modified := aerase c.stage_modified p }

/-- Body of one iteration of the removal loop of `cleanup_stage_cache`
(usd_mcp_server.py lines 133-151): if the path is still cached, then inside a
`try` block a modified stage is flushed before the `del` statements run; a
raising flush is caught by the `except` around the whole block, so on a
failed flush the entry is NOT removed. -/
def cleanupIter (flushOk : String → Bool) (c : LegacyCache) (p : String) :
    LegacyCache :=
  if (alookup c.stage_cache p).isSome then
    if (alookup c.stage_modified p).getD false then
      let c := { c with flushAttempts := c.flushAttempts ++ [p] }
      if flushOk p then legacyRemove c p else c
    else legacyRemove c p
  else c

/-- `cleanup_stage_cache` (usd_mcp_server.py lines 119-151; the copy in
registry.py lines 229-261 is the same code): if the cache exceeds
`MAX_CACHE_SIZE`, sort the access-time items (oldest first) and run the
removal loop over the first `count - MAX_CACHE_SIZE` paths. -/
def cleanup_stage_cache (flushOk : String → Bool) (maxSize : Nat)
    (c : LegacyCache) : LegacyCache :=
  if c.stage_cache.length ≤ maxSize then c
  else
    let sorted_stages := sortByVal (fun x => x.2) c.stage_access_times
    let num_to_remove := c.stage_cache.length - maxSize
    ((sorted_stages.take num_to_remove).map (fun x => x.1)).foldl
      (cleanupIter flushOk) c

/-- The `close_stage` tool (usd_mcp_server.py lines 316-338): if the path is
cached, unload the stage and delete it from `stage_cache` only — no flush is
attempted, and `stage_access_times`/`stage_modified` are left untouched.
Returns `true` for the success envelope, `false` for the "not found" error
envelope. -/
def close_stage_tool (c : LegacyCache) (file_path : String) :
    Bool × LegacyCache :=
  if (alookup c.stage_cache file_path).isSome then
    (true, { c with stage_cache := aerase c.stage_cache file_path })
  else (false, c)

/-- Process state seen by the tool layer of `usd_mcp_server.py`: the global
`stage_registry` instance plus the legacy path-keyed cache dicts. -/
structure ServerState where
  registry : StageRegistry
  legacy : LegacyCache
  deriving DecidableEq, Repr

/-- Registry/cache slice of the `create_stage` tool (usd_mcp_server.py lines
192-314) with the external USD engine succeeding (`stage` is the document the
engine returns, `flushOk` tells whether the initial `GetRootLayer().Save()`
succeeds).  After validating `up_axis` and `template` and saving the new
stage, the tool draws a fresh uuid as `stage_id`, stores the stage in the
legacy `stage_cache`/`stage_access_times`/`stage_modified` dicts — and never
registers it with `stage_registry`.  The uuid is drawn from the same global
uuid4 stream that `register_stage` draws from, modeled by `registry.nextId`.
Returns `some stage_id` on the success envelope, `none` on an error
envelope. -/
def create_stage_tool (s : ServerState) (file_path : String)
    (template : Option String) (up_axis : String) (stage : Nat)
    (flushOk : Bool) : Option Nat × ServerState :=
  if up_axis ≠ "Y" ∧ up_axis ≠ "Z" then (none, s)
  else if template.isSome ∧
      ¬(template = some "empty" ∨ template = some "basic" ∨
        template = some "full") then (none, s)
  else if ¬flushOk then
    (none,
      { s with legacy := { s.legacy with
          flushAttempts := s.legacy.flushAttempts ++ [file_path] } })
  else
    (some s.registry.nextId,
      { registry := { s.registry with nextId := s.registry.nextId + 1 },
        legacy := { s.legacy with
          stage_cache := aset s.legacy.stage_cache file_path stage,
          stage_access_times :=
            aset s.legacy.stage_access_times file_path s.legacy.clock,
          clock := s.legacy.clock + 1,
          stage_modified := aset s.legacy.stage_modified file_path false,
          flushAttempts := s.legacy.flushAttempts ++ [file_path] } })

/-- Registry slice of the core `create_stage` operation
(`usd_mcp_server/core/stage_operations.py` lines 33-125) on its success path:
the freshly created document is registered with the registry and the returned
success envelope carries the `stage_id` that `register_stage` produced
(stage_operations.py lines 113-121). -/
def create_stage_op (r : StageRegistry) (file_path : String) (stage : Nat) :
    Option (Nat × StageRegistry) :=
  register_stage r (fun _ => true) file_path stage

/-- Registry slice of the `open_stage` tool (usd_mcp_server.py lines
2966-3030) on its success path: the opened (or newly created) document is
registered and the success envelope carries the returned `stage_id`
(usd_mcp_server.py lines 3011-3025). -/
def open_stage_tool (r : StageRegistry) (file_path : String) (stage : Nat) :
    Option (Nat × StageRegistry) :=
  register_stage r (fun _ => true) file_path stage

/-- Response envelope (`success_response`/`error_response`,
usd_mcp_server.py lines 88-107; the identical pair is in
stage_operations.py lines 10-31).  `data` is the JSON payload map with
value type `α`; `error_code` is `none` when the serialized record has no
`error_code` key; `timestamp` is `datetime.now().isoformat()`. -/
structure Envelope (α : Type) where
  ok : Bool
  message : String
  data : List (String × α)
  error_code : Option String
  timestamp : Nat
  deriving DecidableEq, Repr

/-- Python `data or {}`: `None` and the empty dict are falsy. -/
def pyOrEmpty {α : Type} : Option (List (String × α)) → List (String × α)
  | none => []
  | some d => if d.isEmpty then [] else d

/-- Python `error_code or "UNKNOWN_ERROR"`: `None` and the empty string are
falsy. -/
def pyOrCode : Option String → String
  | none => "UNKNOWN_ERROR"
  | some c => if c = "" then "UNKNOWN_ERROR" else c

/-- `success_response(message, data)` (usd_mcp_server.py lines 88-96,
stage_operations.py lines 10-19), with `now` the wall-clock reading. -/
def success_response {α : Type} (message : String)
    (data : Option (List (String × α))) (now : Nat) : Envelope α :=
  { ok := true, message := message, data := pyOrEmpty data,
    error_code := none, timestamp := now }

/-- `error_response(message, error_code)` (usd_mcp_server.py lines 98-107,
stage_operations.py lines 21-31). -/
def error_response {α : Type} (message : String) (error_code : Option String)
    (now : Nat) : Envelope α :=
  { ok := false, message := message, data := [],
    error_code := some (pyOrCode error_code), timestamp := now }

/-- One call into the public `StageRegistry` interface.  Flush-capable calls
carry the oracle for their adapter flushes. -/
inductive RegOp where
  | register (flushOk : Nat → Bool) (file_path : String) (stage : Nat)
  | get (stage_id : Nat)
  | getPath (stage_id : Nat)
  | markModified (stage_id : Nat)
  | isMod (stage_id : Nat)
  | save (flushOk : Bool) (stage_id : Nat)
  | unregister (flushOk : Bool) (stage_id : Nat) (save_if_modified : Bool)
  | cleanup (flushOk : Nat → Bool)
  | stats

/-- Run one registry call, returning the list of stage ids it issued (empty
except for `register`) and the post state; `none` when the call does not
return. -/
def runOp (r : StageRegistry) : RegOp → Option (List Nat × StageRegistry)
  | .register flushOk fp st =>
      (register_stage r flushOk fp st).map (fun p => ([p.1], p.2))
  | .get id => (get_stage r id).map (fun p => ([], p.2))
  | .getPath id => (get_stage_path r id).map (fun p => ([], p.2))
  | .markModified id => (mark_as_modified r id).map (fun p => ([], p.2))
  | .isMod id => (is_modified r id).map (fun p => ([], p.2))
  | .save fOk id => (save_stage r fOk id).map (fun p => ([], p.2))
  | .unregister fOk id sim =>
      (unregister_stage r fOk id sim).map (fun p => ([], p.2))
  | .cleanup fOk => (perform_cache_cleanup r fOk).map (fun p => ([], p.2))
  | .stats => (get_stats r).map (fun p => ([], p.2))

/-- Run a sequence of registry calls from a state, collecting all issued
stage ids; `none` as soon as one call fails to return. -/
def runOps : List RegOp → StageRegistry → Option (List Nat × StageRegistry)
  | [], r => some ([], r)
  | op :: ops, r =>
      match runOp r op with
      | none => none
      | some (is, r') =>
          (runOps ops r').map (fun p => (is ++ p.1, p.2))

/-- Signature of one exposed tool: its name, its parameters in order (each
with the source text of its default value, `none` for a required parameter),
and the keys of the `data` map of its success envelope.  Transcribed from the
`def` lines and `success_response` calls of `usd_mcp_server.py`. -/
structure ToolSig where
  name : String
  params : List (String × Option String)
  dataKeys : List String
  deriving DecidableEq, Repr

/-- The mutating tools of `usd_mcp_server.py` that address an existing stage
by raw file path (line numbers of each `def` in parentheses). -/
def pathTools : List ToolSig := [
  { name := "close_stage",                                 -- (line 317)
    params := [("file_path", none)],
    dataKeys := [] },
  { name := "create_mesh",                                 -- (line 409)
    params := [("file_path", none), ("prim_path", none), ("points", none),
               ("face_vertex_counts", none), ("face_vertex_indices", none)],
    dataKeys := ["stage_path", "prim_path"] },
  { name := "create_reference",                            -- (line 491)
    params := [("file_path", none), ("prim_path", none),
               ("reference_file_path", none),
               ("reference_prim_path", some "")],
    dataKeys := ["stage_path", "prim_path", "reference_path",
                 "reference_prim_path"] },
  { name := "create_material",                             -- (line 553)
    params := [("file_path", none), ("material_path", none),
               ("diffuse_color", some "(0.8, 0.8, 0.8)"),
               ("metallic", some "0.0"), ("roughness", some "0.4")],
    dataKeys := ["stage_path", "material_path", "properties"] },
  { name := "bind_material",                               -- (line 631)
    params := [("file_path", none), ("prim_path", none),
               ("material_path", none)],
    dataKeys := ["stage_path", "prim_path", "material_path"] },
  { name := "create_primitive",                            -- (line 691)
    params := [("file_path", none), ("prim_type", none), ("prim_path", none),
               ("size", some "1.0"), ("position", some "(0, 0, 0)")],
    dataKeys := ["stage_path", "prim_path", "prim_type", "size", "position"] },
  { name := "setup_physics_scene",                         -- (line 848)
    params := [("file_path", none), ("gravity", some "(0, -9.81, 0)")],
    dataKeys := ["stage_path", "scene_path", "gravity"] },
  { name := "add_rigid_body",                              -- (line 917)
    params := [("file_path", none), ("prim_path", none),
               ("mass", some "1.0"), ("is_dynamic", some "True")],
    dataKeys := ["stage_path", "prim_path", "mass", "is_dynamic"] },
  { name := "add_collider",                                -- (line 1001)
    params := [("file_path", none), ("prim_path", none),
               ("collider_type", some "mesh"),
               ("approximation", some "none")],
    dataKeys := ["stage_path", "prim_path", "collider_type",
                 "approximation"] },
  { name := "add_joint",                                   -- (line 1091)
    params := [("file_path", none), ("joint_path", none),
               ("body0_path", none), ("body1_path", none),
               ("joint_type", some "fixed"),
               ("local_pos0", some "(0, 0, 0)"),
               ("local_pos1", some "(0, 0, 0)")],
    dataKeys := ["stage_path", "joint_path", "joint_type", "body0", "body1"] },
  { name := "set_transform",                               -- (line 1204)
    params := [("file_path", none), ("prim_path", none),
               ("translate", some "None"), ("rotate", some "None"),
               ("scale", some "None"), ("time_code", some "None")],
    dataKeys := ["stage_path", "prim_path", "transform"] },
  { name := "create_animation",                            -- (line 1309)
    params := [("file_path", none), ("prim_path", none),
               ("attribute_name", none), ("key_frames", none),
               ("interpolation", some "linear")],
    dataKeys := ["stage_path", "prim_path", "attribute", "num_keyframes",
                 "time_range", "interpolation"] },
  { name := "create_skeleton",                             -- (line 1420)
    params := [("file_path", none), ("skeleton_path", none),
               ("joint_names", none), ("joint_hierarchy", none),
               ("rest_transforms", none)],
    dataKeys := ["stage_path", "skeleton_path", "num_joints", "joint_names"] },
  { name := "bind_skeleton",                               -- (line 1530)
    params := [("file_path", none), ("skeleton_path", none),
               ("mesh_path", none), ("joint_indices", none),
               ("joint_weights", none)],
    dataKeys := ["stage_path", "skeleton_path", "mesh_path",
                 "num_influences"] },
  { name := "create_skeletal_animation",                   -- (line 1621)
    params := [("file_path", none), ("animation_path", none),
               ("skeleton_path", none), ("joint_names", none),
               ("transforms_by_time", none)],
    dataKeys := ["stage_path", "animation_path", "skeleton_path",
                 "num_joints", "num_keyframes", "time_range"] }]

/-- The handle-based (`*_by_id`) mutating tools of `usd_mcp_server.py`. -/
def byIdTools : List ToolSig := [
  { name := "close_stage_by_id",                           -- (line 3034)
    params := [("stage_id", none), ("save_if_modified", some "True")],
    dataKeys := [] },
  { name := "set_transform_by_id",                         -- (line 3064)
    params := [("stage_id", none), ("prim_path", none),
               ("translate", some "None"), ("rotate", some "None"),
               ("scale", some "None"), ("time_code", some "None")],
    dataKeys := ["stage_id", "file_path", "prim_path", "translate", "rotate",
                 "scale", "time_code"] },
  { name := "create_mesh_by_id",                           -- (line 3223)
    params := [("stage_id", none), ("prim_path", none), ("points", none),
               ("face_vertex_counts", none), ("face_vertex_indices", none)],
    dataKeys := ["stage_id", "file_path", "prim_path"] },
  { name := "create_primitive_by_id",                      -- (line 3298)
    params := [("stage_id", none), ("prim_type", none), ("prim_path", none),
               ("size", some "1.0"), ("position", some "(0, 0, 0)")],
    dataKeys := ["stage_id", "file_path", "prim_path", "prim_type", "size",
                 "position"] },
  { name := "create_reference_by_id",                      -- (line 3369)
    params := [("stage_id", none), ("prim_path", none),
               ("reference_file_path", none),
               ("reference_prim_path", some "")],
    dataKeys := ["stage_id", "file_path", "prim_path", "reference_path",
                 "reference_prim_path"] },
  { name := "create_material_by_id",                       -- (line 3424)
    params := [("stage_id", none), ("material_path", none),
               ("diffuse_color", some "(0.8, 0.8, 0.8)"),
               ("metallic", some "0.0"), ("roughness", some "0.4")],
    dataKeys := ["stage_id", "file_path", "material_path", "properties"] },
  { name := "bind_material_by_id",                         -- (line 3495)
    params := [("stage_id", none), ("prim_path", none),
               ("material_path", none)],
    dataKeys := ["stage_id", "file_path", "prim_path", "material_path"] },
  { name := "setup_physics_scene_by_id",                   -- (line 3549)
    params := [("stage_id", none), ("gravity", some "(0, -9.81, 0)")],
    dataKeys := ["scene_path", "gravity"] },
  { name := "add_rigid_body_by_id",                        -- (line 3606)
    params := [("stage_id", none), ("prim_path", none),
               ("mass", some "1.0"), ("is_dynamic", some "True")],
    dataKeys := ["prim_path", "mass", "is_dynamic"] }]

/-- The handle-based counterpart of a path-based tool, found by the
`*_by_id` naming convention. -/
def findTwin (t : ToolSig) : Option ToolSig :=
  byIdTools.find? (fun b => b.name = t.name ++ "_by_id")

/-- Parameter parity of a path/handle tool pair: the path form's first
parameter is the raw `file_path`, the handle form's first parameter is
`stage_id`, and the remaining parameters agree, names and default values
alike. -/
def paramParity (t b : ToolSig) : Bool :=
  t.params.head? = some ("file_path", none) &&
  b.params.head? = some ("stage_id", none) &&
  t.params.tail = b.params.tail

/-- Full dual-API parity of a pair, as the claim states it: parameter parity
plus an identical success-envelope data shape. -/
def fullParity (t b : ToolSig) : Bool :=
  paramParity t b && t.dataKeys = b.dataKeys

/-- The claim's parity property for one path-based tool: some handle-based
counterpart exists and has full parity. -/
def hasParityTwin (t : ToolSig) : Bool :=
  match findTwin t with
  | none => false
  | some b => fullParity t b

/-- Parameter-only parity with the tool's `*_by_id` counterpart (ignoring the
success-data shape). -/
def twinParamParity (t : ToolSig) : Bool :=
  match findTwin t with
  | none => false
  | some b => paramParity t b

/-- A registry holding one stage, capacity 1 (`StageRegistry(max_cache_size=1)`
after one `register_stage("a.usda", ...)`). -/
def c1reg : StageRegistry :=
  { stages := [(0, 0)], stage_file_paths := [(0, "a.usda")],
    stage_access_times := [(0, 0)], stage_modified := [(0, false)],
    max_cache_size := 1, lockHeld := false, nextId := 1, clock := 1,
    flushAttempts := [] }

/-- A legacy cache holding one modified stage. -/
def c2cache : LegacyCache :=
  { stage_cache := [("a.usda", 5)], stage_access_times := [("a.usda", 0)],
    stage_modified := [("a.usda", true)], clock := 1, flushAttempts := [] }

/-- A registry holding one modified stage. -/
def c2reg : StageRegistry :=
  { stages := [(0, 7)], stage_file_paths := [(0, "a.usda")],
    stage_access_times := [(0, 0)], stage_modified := [(0, true)],
    max_cache_size := 10, lockHeld := false, nextId := 1, clock := 1,
    flushAttempts := [] }

/-- A registry with two entries, distinct access times, capacity 1: exactly
the over-cap situation `perform_cache_cleanup` is supposed to resolve. -/
def c3reg : StageRegistry :=
  { stages := [(0, 5), (1, 6)],
    stage_file_paths := [(0, "a.usda"), (1, "b.usda")],
    stage_access_times := [(0, 0), (1, 1)],
    stage_modified := [(0, true), (1, false)],
    max_cache_size := 1, lockHeld := false, nextId := 2, clock := 2,
    flushAttempts := [] }

/-- A registry holding one modified stage (for exercising `save_stage`). -/
def c4reg : StageRegistry :=
  { stages := [(0, 7)], stage_file_paths := [(0, "w.usda")],
    stage_access_times := [(0, 0)], stage_modified := [(0, true)],
    max_cache_size := 10, lockHeld := false, nextId := 1, clock := 1,
    flushAttempts := [] }

/-- Fresh server state (empty registry of capacity 10, empty legacy cache). -/
def c6server : ServerState :=
  { registry := StageRegistry.init 10, legacy := LegacyCache.init }

/-- The registry after `create_stage_op (StageRegistry.init 10) "w.usda" 7`. -/
def c6reg : StageRegistry :=
  { stages := [(0, 7)], stage_file_paths := [(0, "w.usda")],
    stage_access_times := [(0, 0)], stage_modified := [(0, false)],
    max_cache_size := 10, lockHeld := false, nextId := 1, clock := 1,
    flushAttempts := [] }

/-- The registry after one `register_stage` on `StageRegistry.init 10`. -/
def c7reg : StageRegistry :=
  { stages := [(0, 0)], stage_file_paths := [(0, "a.usda")],
    stage_access_times := [(0, 0)], stage_modified := [(0, false)],
    max_cache_size := 10, lockHeld := false, nextId := 1, clock := 1,
    flushAttempts := [] }

/-- The registry `c7reg` after `unregister_stage` on handle 0. -/
def c7regEmpty : StageRegistry :=
  { stages := [], stage_file_paths := [], stage_access_times := [],
    stage_modified := [], max_cache_size := 10, lockHeld := false,
    nextId := 1, clock := 1, flushAttempts := [] }

/-- A registry at its capacity (two entries, capacity 2). -/
def c8reg : StageRegistry :=
  { stages := [(0, 0), (1, 1)],
    stage_file_paths := [(0, "a.usda"), (1, "b.usda")],
    stage_access_times := [(0, 0), (1, 1)],
    stage_modified := [(0, false), (1, false)],
    max_cache_size := 2, lockHeld := false, nextId := 2, clock := 2,
    flushAttempts := [] }

/-- An eight-call trace exercising every `StageRegistry` operation named by
the alignment claim. -/
def c10ops : List RegOp :=
  [RegOp.register (fun _ => true) "a.usda" 0, RegOp.get 0,
   RegOp.markModified 0, RegOp.save true 0, RegOp.cleanup (fun _ => true),
   RegOp.stats, RegOp.register (fun _ => true) "b.usda" 1,
   RegOp.unregister false 0 true]

/-- The registry reached by `c10ops` from `StageRegistry.init 2`. -/
def c10reg : StageRegistry :=
  { stages := [(1, 1)], stage_file_paths := [(1, "b.usda")],
    stage_access_times := [(1, 2)], stage_modified := [(1, false)],
    max_cache_size := 2, lockHeld := false, nextId := 2, clock := 3,
    flushAttempts := [0] }

/-- Alignment of the four internal dicts of a `StageRegistry`: every stage id
present in one is present in all four. -/
def aligned (r : StageRegistry) : Prop :=
  ∀ k : Nat,
    (k ∈ akeys r.stages ↔ k ∈ akeys r.stage_file_paths) ∧
    (k ∈ akeys r.stages ↔ k ∈ akeys r.stage_access_times) ∧
    (k ∈ akeys r.stages ↔ k ∈ akeys r.stage_modified)

/-- Handle freshness: every stage id in the registry was drawn from the uuid
stream, i.e. lies below the next value of the `nextId` counter. -/
def freshIds (r : StageRegistry) : Prop :=
  ∀ k ∈ akeys r.stages, k < r.nextId

section ListLemmas

variable {κ α : Type} [DecidableEq κ]

theorem alookup_aset_self (l : List (κ × α)) (k : κ) (v : α) :
    alookup (aset l k v) k = some v := by
  induction l with
  | nil => simp [aset, alookup]
  | cons p rest ih =>
      by_cases h : p.1 = k
      · simp [aset, h, alookup]
      · simp [aset, h, alookup, ih]

theorem alookup_aset_ne (l : List (κ × α)) (k k' : κ) (v : α) (h : k' ≠ k) :
    alookup (aset l k v) k' = alookup l k' := by
  have hk : ¬(k = k') := fun hh => h hh.symm
  induction l with
  | nil => simp [aset, alookup, hk]
  | cons p rest ih =>
      by_cases hp : p.1 = k
      · subst hp
        simp [aset, alookup, hk]
      · by_cases hp' : p.1 = k'
        · simp [aset, hp, alookup, hp', h]
        · simp [aset, hp, alookup, hp', ih]

theorem mem_akeys_aset (l : List (κ × α)) (k k' : κ) (v : α) :
    k' ∈ akeys (aset l k v) ↔ k' = k ∨ k' ∈ akeys l := by
  induction l with
  | nil => simp [aset, akeys]
  | cons p rest ih =>
      by_cases h : p.1 = k
      · simp [aset, h, akeys]
      · simp [aset, h, akeys] at ih ⊢
        tauto

theorem alookup_aerase_self (l : List (κ × α)) (k : κ) :
    alookup (aerase l k) k = none := by
  induction l with
  | nil => simp [aerase, alookup]
  | cons p rest ih =>
      by_cases h : p.1 = k
      · simpa [aerase, h] using ih
      · simpa [aerase, h, alookup] using ih

theorem alookup_aerase_ne (l : List (κ × α)) (k k' : κ) (h : k' ≠ k) :
    alookup (aerase l k) k' = alookup l k' := by
  have hk : ¬(k = k') := fun hh => h hh.symm
  induction l with
  | nil => simp [aerase]
  | cons p rest ih =>
      by_cases hp : p.1 = k
      · have hp' : ¬(p.1 = k') := fun hh => h (hh.symm.trans hp)
        simpa [aerase, hp, alookup, hp', hk] using ih
      · by_cases hp' : p.1 = k'
        · simp [aerase, hp, alookup, hp', h]
        · simp [aerase, hp, alookup, hp', ih]

theorem mem_akeys_aerase (l : List (κ × α)) (k k' : κ) :
    k' ∈ akeys (aerase l k) ↔ k' ∈ akeys l ∧ k' ≠ k := by
  induction l with
  | nil => simp [aerase, akeys]
  | cons p rest ih =>
      by_cases h : p.1 = k
      · subst h
        simp only [aerase, if_pos rfl, akeys, List.map_cons, List.mem_cons] at ih ⊢
        constructor
        · intro hm
          exact ⟨Or.inr (ih.1 hm).1, (ih.1 hm).2⟩
        · rintro ⟨hor, hne⟩
          rcases hor with hor | hor
          · exact absurd hor hne
          · exact ih.2 ⟨hor, hne⟩
      · simp only [aerase, if_neg h, akeys, List.map_cons, List.mem_cons] at ih ⊢
        constructor
        · rintro (hm | hm)
          · subst hm
            exact ⟨Or.inl rfl, fun hh => h hh⟩
          · exact ⟨Or.inr (ih.1 hm).1, (ih.1 hm).2⟩
        · rintro ⟨hor | hor, hne⟩
          · exact Or.inl hor
          · exact Or.inr (ih.2 ⟨hor, hne⟩)

theorem alookup_eq_none_iff (l : List (κ × α)) (k : κ) :
    alookup l k = none ↔ k ∉ akeys l := by
  induction l with
  | nil => simp [alookup, akeys]
  | cons p rest ih =>
      by_cases h : p.1 = k
      · simp [alookup, h, akeys]
      · have hk : ¬(k = p.1) := fun hh => h hh.symm
        simp [alookup, h, akeys, ih, hk]

theorem alookup_isSome_iff (l : List (κ × α)) (k : κ) :
    (alookup l k).isSome = true ↔ k ∈ akeys l := by
  induction l with
  | nil => simp [alookup, akeys]
  | cons p rest ih =>
      by_cases h : p.1 = k
      · simp [alookup, h, akeys]
      · have hk : ¬(k = p.1) := fun hh => h hh.symm
        simp [alookup, h, akeys, ih, hk]

theorem getD_false_eq_true {o : Option Bool} (h : o.getD false = true) :
    o = some true := by
  cases o with
  | none => simp at h
  | some b => cases b <;> simp_all

end ListLemmas

section OpEquations

theorem get_stage_path_eq (r : StageRegistry) (stage_id : Nat)
    (h : r.lockHeld = false) :
    get_stage_path r stage_id = some (alookup r.stage_file_paths stage_id, r) := by
  obtain ⟨stg, fps, ats, md, mx, lk, nx, ck, fl⟩ := r
  cases lk with
  | false => rfl
  | true => simp at h

theorem is_modified_eq (r : StageRegistry) (stage_id : Nat)
    (h : r.lockHeld = false) :
    is_modified r stage_id =
      some ((alookup r.stage_modified stage_id).getD false, r) := by
  obtain ⟨stg, fps, ats, md, mx, lk, nx, ck, fl⟩ := r
  cases lk with
  | false => rfl
  | true => simp at h

theorem get_stats_eq (r : StageRegistry) (h : r.lockHeld = false) :
    get_stats r =
      some ({ total_stages := r.stages.length,
              max_cache_size := r.max_cache_size,
              modified_stages := (r.stage_modified.filter (fun p => p.2)).length,
              stage_ids := akeys r.stages }, r) := by
  obtain ⟨stg, fps, ats, md, mx, lk, nx, ck, fl⟩ := r
  cases lk with
  | false => rfl
  | true => simp at h

theorem get_stage_eq (r : StageRegistry) (stage_id : Nat)
    (h : r.lockHeld = false) :
    get_stage r stage_id =
      match alookup r.stages stage_id with
      | some stage =>
          some (some stage,
            { r with
                stage_access_times := aset r.stage_access_times stage_id r.clock,
                clock := r.clock + 1 })
      | none => some (none, r) := by
  obtain ⟨stg, fps, ats, md, mx, lk, nx, ck, fl⟩ := r
  cases lk with
  | false => cases halk : alookup stg stage_id <;> simp [get_stage, withLock, halk]
  | true => simp at h

theorem mark_as_modified_eq (r : StageRegistry) (stage_id : Nat)
    (h : r.lockHeld = false) :
    mark_as_modified r stage_id =
      if (alookup r.stages stage_id).isSome then
        some (true, { r with stage_modified := aset r.stage_modified stage_id true })
      else some (false, r) := by
  obtain ⟨stg, fps, ats, md, mx, lk, nx, ck, fl⟩ := r
  cases lk with
  | false =>
      cases halk : alookup stg stage_id <;>
        simp [mark_as_modified, withLock, halk]
  | true => simp at h

theorem save_stage_eq (r : StageRegistry) (flushOk : Bool) (stage_id : Nat)
    (h : r.lockHeld = false) :
    save_stage r flushOk stage_id =
      if (alookup r.stages stage_id).isSome &&
          (alookup r.stage_modified stage_id).getD false then
        if flushOk then
          some (true,
            { r with
                stage_modified := aset r.stage_modified stage_id false,
                flushAttempts := r.flushAttempts ++ [stage_id] })
        else
          some (false, { r with flushAttempts := r.flushAttempts ++ [stage_id] })
      else some (false, r) := by
  obtain ⟨stg, fps, ats, md, mx, lk, nx, ck, fl⟩ := r
  cases lk with
  | false =>
      by_cases hc : (alookup stg stage_id).isSome &&
          (alookup md stage_id).getD false
      · cases flushOk <;> simp [save_stage, withLock, hc]
      · simp [save_stage, withLock, hc]
  | true => simp at h

theorem unregister_stage_eq (r : StageRegistry) (flushOk : Bool)
    (stage_id : Nat) (save_if_modified : Bool) (h : r.lockHeld = false) :
    unregister_stage r flushOk stage_id save_if_modified =
      if (alookup r.stages stage_id).isSome then
        if (alookup r.stage_file_paths stage_id).isSome &&
            (alookup r.stage_access_times stage_id).isSome &&
            (alookup r.stage_modified stage_id).isSome then
          some (true,
            { r with
                stages := aerase r.stages stage_id,
                stage_file_paths := aerase r.stage_file_paths stage_id,
                stage_access_times := aerase r.stage_access_times stage_id,
                stage_modified := aerase r.stage_modified stage_id,
                flushAttempts :=
                  if save_if_modified &&
                      (alookup r.stage_modified stage_id).getD false then
                    r.flushAttempts ++ [stage_id]
                  else r.flushAttempts })
        else none
      else some (false, r) := by
  obtain ⟨stg, fps, ats, md, mx, lk, nx, ck, fl⟩ := r
  cases lk with
  | false =>
      by_cases hstg : (alookup stg stage_id).isSome
      · by_cases hflush : save_if_modified && (alookup md stage_id).getD false <;>
          by_cases hfps : (alookup fps stage_id).isSome <;>
          by_cases hats : (alookup ats stage_id).isSome <;>
          by_cases hmd : (alookup md stage_id).isSome <;>
          simp [unregister_stage, withLock, adel, hstg, hflush, hfps, hats, hmd]
      · simp [unregister_stage, withLock, hstg]
  | true => simp at h

theorem unregister_stage_locked (r : StageRegistry) (flushOk : Bool)
    (stage_id : Nat) (save_if_modified : Bool) (h : r.lockHeld = true) :
    unregister_stage r flushOk stage_id save_if_modified = none := by
  simp [unregister_stage, withLock, h]

theorem perform_cache_cleanup_locked (r : StageRegistry) (flushOk : Nat → Bool)
    (h : r.lockHeld = true) : perform_cache_cleanup r flushOk = none := by
  simp [perform_cache_cleanup, withLock, h]

theorem perform_cache_cleanup_eq (r : StageRegistry) (flushOk : Nat → Bool)
    (h : r.lockHeld = false) :
    perform_cache_cleanup r flushOk =
      if r.stages.length ≤ r.max_cache_size then some (0, r)
      else if (sortByVal (fun k => (alookup r.stage_access_times k).getD 0)
                  (akeys r.stage_access_times)).take
                (r.stages.length - r.max_cache_size) = [] then
        some (0, r)
      else none := by
  obtain ⟨stg, fps, ats, md, mx, lk, nx, ck, fl⟩ := r
  cases lk with
  | false =>
      by_cases hlen : stg.length ≤ mx
      · simp [perform_cache_cleanup, withLock, hlen, unregisterEach]
      · cases htake : (sortByVal
              (fun k => (alookup ats k).getD 0) (akeys ats)).take (stg.length - mx) with
        | nil => simp [perform_cache_cleanup, withLock, hlen, htake, unregisterEach]
        | cons x rest =>
            simp [perform_cache_cleanup, withLock, hlen, htake, unregisterEach,
              unregister_stage_locked]
  | true => simp at h

theorem register_stage_eq (r : StageRegistry) (flushOk : Nat → Bool)
    (file_path : String) (stage : Nat) (h : r.lockHeld = false) :
    register_stage r flushOk file_path stage =
      if (aset r.stages r.nextId stage).length > r.max_cache_size then none
      else
        some (r.nextId,
          { r with
              nextId := r.nextId + 1,
              stages := aset r.stages r.nextId stage,
              stage_file_paths := aset r.stage_file_paths r.nextId file_path,
              stage_access_times := aset r.stage_access_times r.nextId r.clock,
              clock := r.clock + 1,
              stage_modified := aset r.stage_modified r.nextId false }) := by
  obtain ⟨stg, fps, ats, md, mx, lk, nx, ck, fl⟩ := r
  cases lk with
  | false =>
      by_cases hlen : (aset stg nx stage).length > mx
      · simp [register_stage, withLock, hlen, perform_cache_cleanup_locked]
      · simp [register_stage, withLock, hlen]
  | true => simp at h

end OpEquations

section TraceLemmas

theorem mem_akeys_aset_absorb {κ α : Type} [DecidableEq κ]
    (l : List (κ × α)) (k : κ) (v : α) (hk : k ∈ akeys l) (k' : κ) :
    k' ∈ akeys (aset l k v) ↔ k' ∈ akeys l := by
  rw [mem_akeys_aset]
  constructor
  · rintro (rfl | hm)
    · exact hk
    · exact hm
  · exact Or.inr

/-- Every completed registry call keeps the lock free, never decreases the
uuid counter, only adds stage ids that it just issued (and drew from the
counter), and preserves handle freshness and four-way dict alignment. -/
theorem runOp_step (r : StageRegistry) (op : RegOp) (is : List Nat)
    (r' : StageRegistry) (hl : r.lockHeld = false)
    (h : runOp r op = some (is, r')) :
    r'.lockHeld = false ∧ r.nextId ≤ r'.nextId ∧
    (∀ k ∈ akeys r'.stages, k ∈ akeys r.stages ∨ (k ∈ is ∧ r.nextId ≤ k)) ∧
    (freshIds r → freshIds r') ∧ (aligned r → aligned r') := by
  cases op with
  | register fOk fp d =>
      simp only [runOp, register_stage_eq r fOk fp d hl] at h
      by_cases hlen : (aset r.stages r.nextId d).length > r.max_cache_size
      · simp [hlen] at h
      · simp [hlen] at h
        obtain ⟨his, hr'⟩ := h
        subst his
        subst hr'
        refine ⟨hl, by simp, ?_, ?_, ?_⟩
        · intro k hk
          rcases (mem_akeys_aset r.stages r.nextId k d).1 hk with rfl | hm
          · exact Or.inr ⟨by simp, le_refl _⟩
          · exact Or.inl hm
        · intro hf k hk
          rcases (mem_akeys_aset r.stages r.nextId k d).1 hk with rfl | hm
          · simp
          · exact Nat.lt_succ_of_lt (hf k hm)
        · intro ha k
          have h1 := (ha k).1
          have h2 := (ha k).2.1
          have h3 := (ha k).2.2
          simp only [mem_akeys_aset]
          tauto
  | get id =>
      simp only [runOp, get_stage_eq r id hl] at h
      cases halk : alookup r.stages id with
      | none =>
          rw [halk] at h
          simp at h
          obtain ⟨his, hr'⟩ := h
          subst his
          subst hr'
          exact ⟨hl, le_refl _, fun k hk => Or.inl hk, fun hf => hf, fun ha => ha⟩
      | some doc =>
          rw [halk] at h
          simp at h
          obtain ⟨his, hr'⟩ := h
          subst his
          subst hr'
          have hid : id ∈ akeys r.stages :=
            (alookup_isSome_iff r.stages id).1 (by simp [halk])
          refine ⟨hl, le_refl _, fun k hk => Or.inl hk, fun hf => hf, ?_⟩
          intro ha k
          have hid' : id ∈ akeys r.stage_access_times := ((ha id).2.1).1 hid
          have h1 := (ha k).1
          have h2 := (ha k).2.1
          have h3 := (ha k).2.2
          simp only [mem_akeys_aset_absorb _ _ _ hid']
          tauto
  | getPath id =>
      simp only [runOp, get_stage_path_eq r id hl] at h
      simp at h
      obtain ⟨his, hr'⟩ := h
      subst his
      subst hr'
      exact ⟨hl, le_refl _, fun k hk => Or.inl hk, fun hf => hf, fun ha => ha⟩
  | markModified id =>
      simp only [runOp, mark_as_modified_eq r id hl] at h
      by_cases hid : (alookup r.stages id).isSome
      · rw [if_pos hid] at h
        simp at h
        obtain ⟨his, hr'⟩ := h
        subst his
        subst hr'
        have hmem : id ∈ akeys r.stages := (alookup_isSome_iff r.stages id).1 hid
        refine ⟨hl, le_refl _, fun k hk => Or.inl hk, fun hf => hf, ?_⟩
        intro ha k
        have hmd : id ∈ akeys r.stage_modified := ((ha id).2.2).1 hmem
        have h1 := (ha k).1
        have h2 := (ha k).2.1
        have h3 := (ha k).2.2
        simp only [mem_akeys_aset_absorb _ _ _ hmd]
        tauto
      · rw [if_neg hid] at h
        simp at h
        obtain ⟨his, hr'⟩ := h
        subst his
        subst hr'
        exact ⟨hl, le_refl _, fun k hk => Or.inl hk, fun hf => hf, fun ha => ha⟩
  | isMod id =>
      simp only [runOp, is_modified_eq r id hl] at h
      simp at h
      obtain ⟨his, hr'⟩ := h
      subst his
      subst hr'
      exact ⟨hl, le_refl _, fun k hk => Or.inl hk, fun hf => hf, fun ha => ha⟩
  | save fOk id =>
      simp only [runOp, save_stage_eq r fOk id hl] at h
      by_cases hc : (alookup r.stages id).isSome &&
          (alookup r.stage_modified id).getD false
      · rw [if_pos hc] at h
        have hmem : id ∈ akeys r.stages :=
          (alookup_isSome_iff r.stages id).1 (by
            rcases Bool.and_eq_true_iff.1 hc with ⟨h1, _⟩
            exact h1)
        cases fOk with
        | true =>
            simp at h
            obtain ⟨his, hr'⟩ := h
            subst his
            subst hr'
            refine ⟨hl, le_refl _, fun k hk => Or.inl hk, fun hf => hf, ?_⟩
            intro ha k
            have hmd : id ∈ akeys r.stage_modified := ((ha id).2.2).1 hmem
            have h1 := (ha k).1
            have h2 := (ha k).2.1
            have h3 := (ha k).2.2
            simp only [mem_akeys_aset_absorb _ _ _ hmd]
            tauto
        | false =>
            simp at h
            obtain ⟨his, hr'⟩ := h
            subst his
            subst hr'
            exact ⟨hl, le_refl _, fun k hk => Or.inl hk, fun hf => hf, fun ha => ha⟩
      · rw [if_neg hc] at h
        simp at h
        obtain ⟨his, hr'⟩ := h
        subst his
        subst hr'
        exact ⟨hl, le_refl _, fun k hk => Or.inl hk, fun hf => hf, fun ha => ha⟩
  | unregister fOk id sim =>
      simp only [runOp, unregister_stage_eq r fOk id sim hl] at h
      by_cases hstg : (alookup r.stages id).isSome
      · rw [if_pos hstg] at h
        by_cases hrest : (alookup r.stage_file_paths id).isSome &&
            (alookup r.stage_access_times id).isSome &&
            (alookup r.stage_modified id).isSome
        · rw [if_pos hrest] at h
          simp at h
          obtain ⟨his, hr'⟩ := h
          subst his
          subst hr'
          refine ⟨hl, le_refl _, ?_, ?_, ?_⟩
          · intro k hk
            exact Or.inl ((mem_akeys_aerase r.stages id k).1 hk).1
          · intro hf k hk
            exact hf k ((mem_akeys_aerase r.stages id k).1 hk).1
          · intro ha k
            have h1 := (ha k).1
            have h2 := (ha k).2.1
            have h3 := (ha k).2.2
            simp only [mem_akeys_aerase]
            tauto
        · rw [if_neg hrest] at h
          simp at h
      · rw [if_neg hstg] at h
        simp at h
        obtain ⟨his, hr'⟩ := h
        subst his
        subst hr'
        exact ⟨hl, le_refl _, fun k hk => Or.inl hk, fun hf => hf, fun ha => ha⟩
  | cleanup fOk =>
      simp only [runOp, perform_cache_cleanup_eq r fOk hl] at h
      by_cases hlen : r.stages.length ≤ r.max_cache_size
      · rw [if_pos hlen] at h
        simp at h
        obtain ⟨his, hr'⟩ := h
        subst his
        subst hr'
        exact ⟨hl, le_refl _, fun k hk => Or.inl hk, fun hf => hf, fun ha => ha⟩
      · rw [if_neg hlen] at h
        by_cases htake : (sortByVal
              (fun k => (alookup r.stage_access_times k).getD 0)
              (akeys r.stage_access_times)).take
              (r.stages.length - r.max_cache_size) = []
        · rw [if_pos htake] at h
          simp at h
          obtain ⟨his, hr'⟩ := h
          subst his
          subst hr'
          exact ⟨hl, le_refl _, fun k hk => Or.inl hk, fun hf => hf, fun ha => ha⟩
        · rw [if_neg htake] at h
          simp at h
  | stats =>
      simp only [runOp, get_stats_eq r hl] at h
      simp at h
      obtain ⟨his, hr'⟩ := h
      subst his
      subst hr'
      exact ⟨hl, le_refl _, fun k hk => Or.inl hk, fun hf => hf, fun ha => ha⟩

/-- Sequence version of `runOp_step`. -/
theorem runOps_step (ops : List RegOp) (r : StageRegistry) (is : List Nat)
    (r' : StageRegistry) (hl : r.lockHeld = false)
    (h : runOps ops r = some (is, r')) :
    r'.lockHeld = false ∧ r.nextId ≤ r'.nextId ∧
    (∀ k ∈ akeys r'.stages, k ∈ akeys r.stages ∨ (k ∈ is ∧ r.nextId ≤ k)) ∧
    (freshIds r → freshIds r') ∧ (aligned r → aligned r') := by
  induction ops generalizing r is with
  | nil =>
      simp [runOps] at h
      obtain ⟨his, hr'⟩ := h
      subst his
      subst hr'
      exact ⟨hl, le_refl _, fun k hk => Or.inl hk, fun hf => hf, fun ha => ha⟩
  | cons op ops ih =>
      simp only [runOps] at h
      cases hop : runOp r op with
      | none => rw [hop] at h; simp at h
      | some p =>
          rw [hop] at h
          obtain ⟨is₁, r₁⟩ := p
          cases hrest : runOps ops r₁ with
          | none => simp [hrest] at h
          | some q =>
              obtain ⟨is₂, r₂⟩ := q
              simp [hrest] at h
              obtain ⟨his, hr'⟩ := h
              subst his
              subst hr'
              obtain ⟨hl₁, hn₁, hk₁, hf₁, ha₁⟩ := runOp_step r op is₁ r₁ hl hop
              obtain ⟨hl₂, hn₂, hk₂, hf₂, ha₂⟩ := ih r₁ is₂ hl₁ hrest
              refine ⟨hl₂, le_trans hn₁ hn₂, ?_, fun hf => hf₂ (hf₁ hf),
                fun ha => ha₂ (ha₁ ha)⟩
              intro k hk
              rcases hk₂ k hk with hk' | ⟨hmem, hle⟩
              · rcases hk₁ k hk' with hk'' | ⟨hmem, hle⟩
                · exact Or.inl hk''
                · exact Or.inr ⟨List.mem_append_left _ hmem, hle⟩
              · exact Or.inr ⟨List.mem_append_right _ hmem, le_trans hn₁ hle⟩

/-- The initial registry is trivially fresh and aligned with a free lock. -/
theorem init_props (max : Nat) :
    (StageRegistry.init max).lockHeld = false ∧
    freshIds (StageRegistry.init max) ∧ aligned (StageRegistry.init max) := by
  refine ⟨rfl, ?_, ?_⟩
  · intro k hk
    simp [StageRegistry.init, akeys] at hk
  · intro k
    simp [StageRegistry.init, akeys]

/-- A stage id that is absent and below the uuid counter stays absent under
any sequence of completed registry calls (no handle reuse). -/
theorem runOps_no_reuse (ops : List RegOp) (r : StageRegistry) (is : List Nat)
    (r' : StageRegistry) (h : Nat) (hl : r.lockHeld = false)
    (hrun : runOps ops r = some (is, r'))
    (habs : h ∉ akeys r.stages) (hlt : h < r.nextId) :
    h ∉ akeys r'.stages := by
  obtain ⟨_, _, hk, _, _⟩ := runOps_step ops r is r' hl hrun
  intro hmem
  rcases hk h hmem with hk' | ⟨_, hle⟩
  · exact habs hk'
  · exact absurd hlt (not_lt.2 hle)

end TraceLemmas

section RegisterPost

/-- Application form of `get_stage_eq` for a present handle. -/
theorem get_stage_of_lookup (r : StageRegistry) (stage_id d : Nat)
    (hl : r.lockHeld = false) (h : alookup r.stages stage_id = some d) :
    ∃ r₂, get_stage r stage_id = some (some d, r₂) := by
  rw [get_stage_eq r stage_id hl, h]
  exact ⟨_, rfl⟩

/-- Application form of `get_stage_eq` for an absent handle. -/
theorem get_stage_of_lookup_none (r : StageRegistry) (stage_id : Nat)
    (hl : r.lockHeld = false) (h : alookup r.stages stage_id = none) :
    get_stage r stage_id = some (none, r) := by
  rw [get_stage_eq r stage_id hl, h]

/-- Application form of `get_stage_path_eq` for a present handle. -/
theorem get_stage_path_of_lookup (r : StageRegistry) (stage_id : Nat)
    (fp : String) (hl : r.lockHeld = false)
    (h : alookup r.stage_file_paths stage_id = some fp) :
    get_stage_path r stage_id = some (some fp, r) := by
  rw [get_stage_path_eq r stage_id hl, h]

/-- Application form of `is_modified_eq` for a present handle. -/
theorem is_modified_of_lookup (r : StageRegistry) (stage_id : Nat) (b : Bool)
    (hl : r.lockHeld = false)
    (h : alookup r.stage_modified stage_id = some b) :
    is_modified r stage_id = some (b, r) := by
  rw [is_modified_eq r stage_id hl, h]
  rfl

/-- Post-state of a completed `register_stage`: the returned id is live, maps
to the registered document and file path, and is unmodified. -/
theorem register_post (r : StageRegistry) (fOk : Nat → Bool) (fp : String)
    (d sid : Nat) (r' : StageRegistry) (hl : r.lockHeld = false)
    (h : register_stage r fOk fp d = some (sid, r')) :
    (∃ r₂, get_stage r' sid = some (some d, r₂)) ∧
    get_stage_path r' sid = some (some fp, r') ∧
    is_modified r' sid = some (false, r') := by
  rw [register_stage_eq r fOk fp d hl] at h
  by_cases hlen : (aset r.stages r.nextId d).length > r.max_cache_size
  · rw [if_pos hlen] at h
    exact absurd h (by simp)
  · rw [if_neg hlen] at h
    simp at h
    obtain ⟨hsid, hr'⟩ := h
    subst hsid
    subst hr'
    refine ⟨?_, ?_, ?_⟩
    · exact get_stage_of_lookup _ _ _ hl (alookup_aset_self _ _ _)
    · exact get_stage_path_of_lookup _ _ _ hl (alookup_aset_self _ _ _)
    · exact is_modified_of_lookup _ _ _ hl (alookup_aset_self _ _ _)

/-- Success inversion for the `create_stage` tool: a success envelope carries
the freshly drawn uuid as its `stage_id`, and the only registry effect of the
call is consuming that uuid from the stream. -/
theorem create_stage_tool_succ (s : ServerState) (fp : String)
    (t : Option String) (ua : String) (d : Nat) (fOk : Bool) (sid : Nat)
    (h : (create_stage_tool s fp t ua d fOk).1 = some sid) :
    sid = s.registry.nextId ∧
    (create_stage_tool s fp t ua d fOk).2.registry =
      { s.registry with nextId := s.registry.nextId + 1 } := by
  by_cases hua : ua ≠ "Y" ∧ ua ≠ "Z"
  · simp only [create_stage_tool, if_pos hua] at h
    exact Option.noConfusion h
  · by_cases ht : t.isSome = true ∧
        ¬(t = some "empty" ∨ t = some "basic" ∨ t = some "full")
    · simp only [create_stage_tool, if_neg hua, if_pos ht] at h
      exact Option.noConfusion h
    · cases fOk with
      | false =>
          simp only [create_stage_tool, if_neg hua, if_neg ht,
            if_pos (by simp : ¬(false = true))] at h
          exact Option.noConfusion h
      | true =>
          simp only [create_stage_tool, if_neg hua, if_neg ht,
            if_neg (by simp : ¬¬(true = true))] at h ⊢
          exact ⟨(Option.some.inj h).symm, rfl⟩

end RegisterPost

section Claims

/-- C1: the cap invariant fails as stated.  A `register_stage` call whose
insertion stays within `max_cache_size` completes and respects the cap, but a
registration that pushes the count above the cap never applies the promised
eviction: holding the registry's non-reentrant lock, it calls
`perform_cache_cleanup`, which blocks forever re-acquiring that same lock, so
the call never returns (modeled as `none`). -/
theorem c1_register_over_cap_never_returns :
    register_stage (StageRegistry.init 1) (fun _ => true) "a.usda" 0 =
      some (0, c1reg) ∧
    c1reg.stages.length ≤ c1reg.max_cache_size ∧
    register_stage c1reg (fun _ => true) "b.usda" 1 = none := by
  decide

/-- C2 counterexample: the path-based `close_stage` tool removes a cached
stage whose modified flag is true without attempting any flush — the entry
disappears and the adapter flush log stays empty, refuting the claim that
every removal of a modified entry is preceded by a flush attempt. -/
theorem c2_close_stage_counterexample :
    alookup c2cache.stage_modified "a.usda" = some true ∧
    (close_stage_tool c2cache "a.usda").1 = true ∧
    alookup (close_stage_tool c2cache "a.usda").2.stage_cache "a.usda" = none ∧
    (close_stage_tool c2cache "a.usda").2.flushAttempts = [] := by
  decide

/-- C2 (amended): removals through `unregister_stage` (the path used by
`close_stage_by_id` and by registry eviction) do flush a modified entry first
and release it even when the flush fails; but the path-based `close_stage`
removes its entry without ever attempting a flush, and the legacy
`cleanup_stage_cache` loop attempts the flush yet keeps the entry when the
flush fails. -/
theorem c2_no_silent_loss_amended :
    (∀ (r : StageRegistry) (flushOk : Bool) (stage_id : Nat),
       r.lockHeld = false →
       (alookup r.stages stage_id).isSome = true →
       (alookup r.stage_modified stage_id).getD false = true →
       (alookup r.stage_file_paths stage_id).isSome = true →
       (alookup r.stage_access_times stage_id).isSome = true →
       ∃ r', unregister_stage r flushOk stage_id true = some (true, r') ∧
         r'.flushAttempts = r.flushAttempts ++ [stage_id] ∧
         alookup r'.stages stage_id = none) ∧
    (∀ (c : LegacyCache) (p : String),
       (close_stage_tool c p).2.flushAttempts = c.flushAttempts) ∧
    (∀ (c : LegacyCache) (p : String) (flushOk : String → Bool),
       (alookup c.stage_cache p).isSome = true →
       (alookup c.stage_modified p).getD false = true →
       flushOk p = false →
       cleanupIter flushOk c p =
         { c with flushAttempts := c.flushAttempts ++ [p] }) := by
  refine ⟨?_, ?_, ?_⟩
  · intro r flushOk stage_id hl hstg hmod hfps hats
    have hmd : (alookup r.stage_modified stage_id).isSome = true := by
      rw [getD_false_eq_true hmod]
      rfl
    rw [unregister_stage_eq r flushOk stage_id true hl, if_pos hstg,
      if_pos (by simp [hfps, hats, hmd] : ((alookup r.stage_file_paths
        stage_id).isSome && (alookup r.stage_access_times stage_id).isSome &&
        (alookup r.stage_modified stage_id).isSome) = true)]
    refine ⟨_, rfl, ?_, alookup_aerase_self _ _⟩
    simp [hmod]
  · intro c p
    by_cases hp : (alookup c.stage_cache p).isSome <;>
      simp [close_stage_tool, hp]
  · intro c p flushOk h1 h2 h3
    simp [cleanupIter, h1, h2, h3]

/-- C2 witness: the amended statement applied to a one-entry registry with a
failing flush, to the one-entry legacy cache, and to a failing-flush cleanup
iteration. -/
theorem c2_no_silent_loss_amended_witness :
    (∃ r', unregister_stage c2reg false 0 true = some (true, r') ∧
       r'.flushAttempts = c2reg.flushAttempts ++ [0] ∧
       alookup r'.stages 0 = none) ∧
    (close_stage_tool c2cache "a.usda").2.flushAttempts =
      c2cache.flushAttempts ∧
    cleanupIter (fun _ => false) c2cache "a.usda" =
      { c2cache with flushAttempts := c2cache.flushAttempts ++ ["a.usda"] } :=
  ⟨c2_no_silent_loss_amended.1 c2reg false 0 rfl rfl rfl rfl rfl,
   c2_no_silent_loss_amended.2.1 c2cache "a.usda",
   c2_no_silent_loss_amended.2.2 c2cache "a.usda" (fun _ => false) rfl rfl rfl⟩

/-- C3: the LRU eviction claim fails on the code.  On a registry with two
entries of distinct access times and capacity 1 (and `get_stage` does refresh
access times, as the second-to-last conjunct shows), `perform_cache_cleanup`
removes nothing: it calls `unregister_stage` while already holding the
registry's non-reentrant lock and blocks forever (modeled as `none`), instead
of removing exactly the oldest entry. -/
theorem c3_cleanup_over_cap_never_returns :
    c3reg.stages.length = 2 ∧ c3reg.max_cache_size = 1 ∧
    alookup c3reg.stage_access_times 0 = some 0 ∧
    alookup c3reg.stage_access_times 1 = some 1 ∧
    get_stage c3reg 0 =
      some (some 5,
        { c3reg with
            stage_access_times := aset c3reg.stage_access_times 0 c3reg.clock,
            clock := c3reg.clock + 1 }) ∧
    perform_cache_cleanup c3reg (fun _ => true) = none := by
  decide

/-- C4: `save_stage` flushes iff the handle is present and the entry is
modified; a successful flush clears the flag and returns true; an absent or
unmodified entry returns false with no flush and no state change; and a
failing flush returns false with the modified flag (and every dict) left
unchanged. -/
theorem c4_save_semantics (r : StageRegistry) (stage_id : Nat)
    (flushOk : Bool) (hlock : r.lockHeld = false) :
    ∃ b r', save_stage r flushOk stage_id = some (b, r') ∧
      (¬(((alookup r.stages stage_id).isSome &&
          (alookup r.stage_modified stage_id).getD false) = true) →
        b = false ∧ r' = r) ∧
      (((alookup r.stages stage_id).isSome &&
          (alookup r.stage_modified stage_id).getD false) = true →
        r'.flushAttempts = r.flushAttempts ++ [stage_id] ∧
        (flushOk = true → b = true ∧
          alookup r'.stage_modified stage_id = some false) ∧
        (flushOk = false → b = false ∧
          alookup r'.stage_modified stage_id = some true ∧
          r'.stages = r.stages ∧
          r'.stage_file_paths = r.stage_file_paths ∧
          r'.stage_access_times = r.stage_access_times ∧
          r'.stage_modified = r.stage_modified)) := by
  rw [save_stage_eq r flushOk stage_id hlock]
  by_cases hc : ((alookup r.stages stage_id).isSome &&
      (alookup r.stage_modified stage_id).getD false) = true
  · have hmod : alookup r.stage_modified stage_id = some true :=
      getD_false_eq_true (Bool.and_eq_true_iff.1 hc).2
    cases flushOk with
    | true =>
        rw [if_pos hc, if_pos rfl]
        refine ⟨true, _, rfl, fun hn => absurd hc hn, fun _ => ⟨rfl, ?_, ?_⟩⟩
        · exact fun _ => ⟨rfl, alookup_aset_self _ _ _⟩
        · intro hcontra
          exact absurd hcontra (by simp)
    | false =>
        rw [if_pos hc, if_neg (by simp)]
        refine ⟨false, _, rfl, fun hn => absurd hc hn, fun _ => ⟨rfl, ?_, ?_⟩⟩
        · intro hcontra
          exact absurd hcontra (by simp)
        · exact fun _ => ⟨rfl, hmod, rfl, rfl, rfl, rfl⟩
  · rw [if_neg hc]
    exact ⟨false, r, rfl, fun _ => ⟨rfl, rfl⟩, fun hcond => absurd hcond hc⟩

/-- C4 witness: `save_stage` on a one-entry modified registry with a
succeeding flush. -/
theorem c4_save_semantics_witness :
    ∃ b r', save_stage c4reg true 0 = some (b, r') ∧
      (¬(((alookup c4reg.stages 0).isSome &&
          (alookup c4reg.stage_modified 0).getD false) = true) →
        b = false ∧ r' = c4reg) ∧
      (((alookup c4reg.stages 0).isSome &&
          (alookup c4reg.stage_modified 0).getD false) = true →
        r'.flushAttempts = c4reg.flushAttempts ++ [0] ∧
        (true = true → b = true ∧
          alookup r'.stage_modified 0 = some false) ∧
        (true = false → b = false ∧
          alookup r'.stage_modified 0 = some true ∧
          r'.stages = c4reg.stages ∧
          r'.stage_file_paths = c4reg.stage_file_paths ∧
          r'.stage_access_times = c4reg.stage_access_times ∧
          r'.stage_modified = c4reg.stage_modified)) :=
  c4_save_semantics c4reg 0 true rfl

/-- C5 counterexample: `add_collider` is a mutating capability addressed by a
raw file path and has no handle-based counterpart at all, refuting the
dual-API parity claim. -/
theorem c5_parity_counterexample :
    ∃ t ∈ pathTools, t.name = "add_collider" ∧ findTwin t = none ∧
      hasParityTwin t = false := by
  decide

/-- C5 (amended): of the fifteen mutating path-based capabilities, eight
(`create_mesh`, `create_reference`, `create_material`, `bind_material`,
`create_primitive`, `setup_physics_scene`, `add_rigid_body`,
`set_transform`) have a `*_by_id` counterpart whose remaining parameters and
defaults are identical; six (`add_collider`, `add_joint`, `create_animation`,
`create_skeleton`, `bind_skeleton`, `create_skeletal_animation`) have no
handle-based counterpart; `close_stage`'s counterpart adds a
`save_if_modified` parameter; and no pair returns an identical success-data
shape. -/
theorem c5_dual_api_parity_amended :
    ((pathTools.filter twinParamParity).map ToolSig.name =
      ["create_mesh", "create_reference", "create_material", "bind_material",
       "create_primitive", "setup_physics_scene", "add_rigid_body",
       "set_transform"]) ∧
    ((pathTools.filter (fun t => (findTwin t).isNone)).map ToolSig.name =
      ["add_collider", "add_joint", "create_animation", "create_skeleton",
       "bind_skeleton", "create_skeletal_animation"]) ∧
    ((pathTools.filter
        (fun t => (findTwin t).isSome && !(twinParamParity t))).map
        ToolSig.name = ["close_stage"]) ∧
    pathTools.all (fun t => !(hasParityTwin t)) = true := by
  decide

/-- C6 counterexample: the top-level `create_stage` tool returns a success
envelope whose `stage_id` was never registered — the registry stays empty,
`get_stage` on the returned id yields Python `None`, and the stage lives
only in the legacy path-keyed cache. -/
theorem c6_create_stage_tool_counterexample :
    (create_stage_tool c6server "a.usda" none "Y" 7 true).1 = some 0 ∧
    get_stage (create_stage_tool c6server "a.usda" none "Y" 7 true).2.registry
      0 =
      some (none,
        (create_stage_tool c6server "a.usda" none "Y" 7 true).2.registry) ∧
    alookup
      (create_stage_tool c6server "a.usda" none "Y" 7 true).2.legacy.stage_cache
      "a.usda" = some 7 := by
  decide

/-- C6 (amended): after a successful core `create_stage` operation or
`open_stage` tool call the returned `stage_id` is a live handle — `get_stage`
yields the registered document, `get_stage_path` the file path, and the entry
is unmodified; but the `stage_id` returned by the top-level `create_stage`
tool is never registered, so `get_stage` on it yields Python `None`. -/
theorem c6_lifecycle_registration_amended :
    (∀ (r : StageRegistry) (fp : String) (d sid : Nat) (r' : StageRegistry),
       r.lockHeld = false →
       create_stage_op r fp d = some (sid, r') →
       (∃ r₂, get_stage r' sid = some (some d, r₂)) ∧
       get_stage_path r' sid = some (some fp, r') ∧
       is_modified r' sid = some (false, r')) ∧
    (∀ (r : StageRegistry) (fp : String) (d sid : Nat) (r' : StageRegistry),
       r.lockHeld = false →
       open_stage_tool r fp d = some (sid, r') →
       (∃ r₂, get_stage r' sid = some (some d, r₂)) ∧
       get_stage_path r' sid = some (some fp, r') ∧
       is_modified r' sid = some (false, r')) ∧
    (∀ (s : ServerState) (fp : String) (t : Option String) (ua : String)
       (d : Nat) (fOk : Bool) (sid : Nat),
       s.registry.lockHeld = false →
       freshIds s.registry →
       (create_stage_tool s fp t ua d fOk).1 = some sid →
       get_stage (create_stage_tool s fp t ua d fOk).2.registry sid =
         some (none, (create_stage_tool s fp t ua d fOk).2.registry)) := by
  refine ⟨?_, ?_, ?_⟩
  · intro r fp d sid r' hl h
    exact register_post r (fun _ => true) fp d sid r' hl h
  · intro r fp d sid r' hl h
    exact register_post r (fun _ => true) fp d sid r' hl h
  · intro s fp t ua d fOk sid hl hfresh h
    obtain ⟨hsid, hreg⟩ := create_stage_tool_succ s fp t ua d fOk sid h
    subst hsid
    rw [hreg]
    have hnone : alookup s.registry.stages s.registry.nextId = none :=
      (alookup_eq_none_iff _ _).2 (fun hmem => lt_irrefl _ (hfresh _ hmem))
    exact get_stage_of_lookup_none _ _ hl hnone

/-- C6 witness: the amended statement applied to a fresh registry and the
fresh server state. -/
theorem c6_lifecycle_registration_amended_witness :
    ((∃ r₂, get_stage c6reg 0 = some (some 7, r₂)) ∧
      get_stage_path c6reg 0 = some (some "w.usda", c6reg) ∧
      is_modified c6reg 0 = some (false, c6reg)) ∧
    ((∃ r₂, get_stage c6reg 0 = some (some 7, r₂)) ∧
      get_stage_path c6reg 0 = some (some "w.usda", c6reg) ∧
      is_modified c6reg 0 = some (false, c6reg)) ∧
    get_stage (create_stage_tool c6server "b.usda" none "Z" 9 true).2.registry
      0 =
      some (none,
        (create_stage_tool c6server "b.usda" none "Z" 9 true).2.registry) :=
  ⟨c6_lifecycle_registration_amended.1 (StageRegistry.init 10) "w.usda" 7 0
      c6reg rfl rfl,
   c6_lifecycle_registration_amended.2.1 (StageRegistry.init 10) "w.usda" 7 0
      c6reg rfl rfl,
   c6_lifecycle_registration_amended.2.2 c6server "b.usda" none "Z" 9 true 0
      rfl (fun k hk => by simp [c6server, StageRegistry.init, akeys] at hk)
      rfl⟩

/-- C7: `get_stage` returns Python `None` for every handle never issued by
`register_stage` along a completed trace from a fresh registry, and for every
handle after a successful `unregister_stage` on it (also after any further
completed calls — handles are never reused); a present handle returns its
document. -/
theorem c7_handle_isolation :
    (∀ (ops : List RegOp) (max : Nat) (issued : List Nat) (r : StageRegistry)
       (h : Nat),
       runOps ops (StageRegistry.init max) = some (issued, r) →
       h ∉ issued →
       get_stage r h = some (none, r)) ∧
    (∀ (ops : List RegOp) (max : Nat) (issued : List Nat) (r : StageRegistry)
       (flushOk : Bool) (h : Nat) (sim : Bool) (r₁ : StageRegistry)
       (ops₂ : List RegOp) (issued₂ : List Nat) (r₂ : StageRegistry),
       runOps ops (StageRegistry.init max) = some (issued, r) →
       unregister_stage r flushOk h sim = some (true, r₁) →
       runOps ops₂ r₁ = some (issued₂, r₂) →
       get_stage r₂ h = some (none, r₂)) ∧
    (∀ (r : StageRegistry) (h d : Nat),
       r.lockHeld = false →
       alookup r.stages h = some d →
       ∃ r', get_stage r h = some (some d, r')) := by
  refine ⟨?_, ?_, ?_⟩
  · intro ops max issued r h hrun hnotin
    obtain ⟨hl0, hf0, ha0⟩ := init_props max
    obtain ⟨hl, _, hk, _, _⟩ := runOps_step ops _ issued r hl0 hrun
    have hnotkeys : h ∉ akeys r.stages := by
      intro hmem
      rcases hk h hmem with hk' | ⟨hin, _⟩
      · simp [StageRegistry.init, akeys] at hk'
      · exact hnotin hin
    rw [get_stage_eq r h hl, (alookup_eq_none_iff _ _).2 hnotkeys]
  · intro ops max issued r fOk h sim r₁ ops₂ issued₂ r₂ hrun hunreg hrun₂
    obtain ⟨hl0, hf0, ha0⟩ := init_props max
    obtain ⟨hl, _, _, hfr, _⟩ := runOps_step ops _ issued r hl0 hrun
    have hfresh := hfr hf0
    rw [unregister_stage_eq r fOk h sim hl] at hunreg
    by_cases hstg : (alookup r.stages h).isSome = true
    · rw [if_pos hstg] at hunreg
      by_cases hrest : ((alookup r.stage_file_paths h).isSome &&
          (alookup r.stage_access_times h).isSome &&
          (alookup r.stage_modified h).isSome) = true
      · rw [if_pos hrest] at hunreg
        simp at hunreg
        have hlt : h < r.nextId := hfresh h ((alookup_isSome_iff _ _).1 hstg)
        subst hunreg
        have hnotmem : h ∉ akeys (aerase r.stages h) := by
          rw [mem_akeys_aerase]
          simp
        have habs := runOps_no_reuse ops₂ _ issued₂ r₂ h (by exact hl) hrun₂
          hnotmem hlt
        obtain ⟨hl₂, _, _, _, _⟩ :=
          runOps_step ops₂ _ issued₂ r₂ (by exact hl) hrun₂
        rw [get_stage_eq r₂ h hl₂, (alookup_eq_none_iff _ _).2 habs]
      · rw [if_neg hrest] at hunreg
        exact absurd hunreg (by simp)
    · rw [if_neg hstg] at hunreg
      simp at hunreg
  · intro r h d hl halk
    rw [get_stage_eq r h hl, halk]
    exact ⟨_, rfl⟩

/-- C7 witness: a never-issued handle, a handle closed by
`unregister_stage`, and a present handle, on a one-registration trace. -/
theorem c7_handle_isolation_witness :
    get_stage c7reg 5 = some (none, c7reg) ∧
    get_stage c7regEmpty 0 = some (none, c7regEmpty) ∧
    (∃ r', get_stage c7reg 0 = some (some 0, r')) :=
  ⟨c7_handle_isolation.1 [RegOp.register (fun _ => true) "a.usda" 0] 10 [0]
      c7reg 5 rfl (by decide),
   c7_handle_isolation.2.1 [RegOp.register (fun _ => true) "a.usda" 0] 10 [0]
      c7reg true 0 true c7regEmpty [] [] c7regEmpty rfl rfl rfl,
   c7_handle_isolation.2.2 c7reg 0 0 rfl rfl⟩

/-- C8: register totality fails on the code.  Registering onto a registry
already at its capacity (itself reached by two completed `register_stage`
calls) does not complete after evicting: holding the non-reentrant lock, it
calls `perform_cache_cleanup`, which blocks forever acquiring that same lock,
so the call never returns (modeled as `none`). -/
theorem c8_register_at_cap_never_returns :
    runOps [RegOp.register (fun _ => true) "a.usda" 0,
            RegOp.register (fun _ => true) "b.usda" 1]
        (StageRegistry.init 2) = some ([0, 1], c8reg) ∧
    c8reg.stages.length = c8reg.max_cache_size ∧
    register_stage c8reg (fun _ => true) "c.usda" 2 = none := by
  decide

/-- C9 counterexample: `error_response` called with the explicitly given
error code `""` produces the code `"UNKNOWN_ERROR"` instead of the given
code (Python's `or` treats the empty string as falsy), refuting the claim
that the given code is used whenever one is given. -/
theorem c9_error_code_counterexample :
    (error_response (α := Nat) "boom" (some "") 0).error_code =
      some "UNKNOWN_ERROR" ∧
    ¬((error_response (α := Nat) "boom" (some "") 0).error_code = some "") := by
  decide

/-- C9 (amended): `success_response` yields `ok = true` with the given
message and data (empty map when none is given) and a timestamp;
`error_response` yields `ok = false` with the given message, an empty data
map, a timestamp, and the given error code — except that both a missing code
and an empty-string code default to `"UNKNOWN_ERROR"`. -/
theorem c9_envelope_shape_amended :
    (∀ (α : Type) (msg : String) (data : Option (List (String × α)))
       (now : Nat),
       (success_response msg data now).ok = true ∧
       (success_response msg data now).message = msg ∧
       (success_response msg data now).data = data.getD [] ∧
       (success_response msg data now).error_code = none ∧
       (success_response msg data now).timestamp = now) ∧
    (∀ (α : Type) (msg : String) (code : Option String) (now : Nat),
       (error_response (α := α) msg code now).ok = false ∧
       (error_response (α := α) msg code now).message = msg ∧
       (error_response (α := α) msg code now).data = [] ∧
       (error_response (α := α) msg code now).timestamp = now ∧
       ((code = none ∨ code = some "") →
         (error_response (α := α) msg code now).error_code =
           some "UNKNOWN_ERROR") ∧
       (∀ c, code = some c → ¬(c = "") →
         (error_response (α := α) msg code now).error_code = some c)) := by
  refine ⟨?_, ?_⟩
  · intro α msg data now
    refine ⟨rfl, rfl, ?_, rfl, rfl⟩
    cases data with
    | none => rfl
    | some d =>
        cases d with
        | nil => rfl
        | cons x xs => simp [success_response, pyOrEmpty]
  · intro α msg code now
    refine ⟨rfl, rfl, rfl, rfl, ?_, ?_⟩
    · rintro (rfl | rfl) <;> rfl
    · rintro c rfl hc
      simp [error_response, pyOrCode, hc]

/-- C9 witness: the amended statement applied to concrete envelopes,
including the empty-string and non-empty error codes. -/
theorem c9_envelope_shape_amended_witness :
    ((success_response "ok" (some [("k", 1)]) 5).ok = true ∧
      (success_response "ok" (some [("k", 1)]) 5).message = "ok" ∧
      (success_response "ok" (some [("k", 1)]) 5).data =
        (some [("k", 1)]).getD [] ∧
      (success_response "ok" (some [("k", 1)]) 5).error_code = none ∧
      (success_response "ok" (some [("k", 1)]) 5).timestamp = 5) ∧
    (error_response (α := Nat) "bad" (some "") 6).error_code =
      some "UNKNOWN_ERROR" ∧
    (error_response (α := Nat) "bad" (some "E_IO") 6).error_code =
      some "E_IO" :=
  ⟨c9_envelope_shape_amended.1 Nat "ok" (some [("k", 1)]) 5,
   (c9_envelope_shape_amended.2 Nat "bad" (some "") 6).2.2.2.2.1
      (Or.inr rfl),
   (c9_envelope_shape_amended.2 Nat "bad" (some "E_IO") 6).2.2.2.2.2 "E_IO"
      rfl (by decide)⟩

/-- C10: along every completed trace of `StageRegistry` operations from a
fresh registry, the four internal dicts `_stages`, `_stage_file_paths`,
`_stage_access_times` and `_stage_modified` have exactly the same key set. -/
theorem c10_map_alignment (ops : List RegOp) (max : Nat) (issued : List Nat)
    (r : StageRegistry)
    (h : runOps ops (StageRegistry.init max) = some (issued, r)) :
    aligned r := by
  obtain ⟨hl0, hf0, ha0⟩ := init_props max
  exact (runOps_step ops _ issued r hl0 h).2.2.2.2 ha0

/-- C10 witness: an eight-call trace exercising every operation the claim
names. -/
theorem c10_map_alignment_witness :
    runOps c10ops (StageRegistry.init 2) = some ([0, 1], c10reg) ∧
    aligned c10reg :=
  ⟨rfl, c10_map_alignment c10ops 2 [0, 1] c10reg rfl⟩

end Claims

end UsdMcp
